import Mathlib

/-!
Verification of the PalatePilot tour-generation pipeline.

The Python sources (`tools.py`, `main.py`, `final-ui.py`) are shallowly
embedded below.  External effects (HTTP responses, the Julep execution
service, the wall clock) are passed in as explicit outcome values; pure
string and JSON post-processing is translated function by function.
JSON numbers are modelled as integers, which covers every code path the
claims exercise (the weather-code thresholds and temperature comparisons
are structurally identical for fractional readings).
-/

namespace PalatePilot

/-- Characters written by code point so that brace and quote literals never
appear verbatim in the file. -/
def lbraceChar : Char := Char.ofNat 123

def rbraceChar : Char := Char.ofNat 125

def quoteChar : Char := Char.ofNat 34

def backslashChar : Char := Char.ofNat 92

/-! ## A model of Python `json` values and `json.loads` -/

/-- JSON values as produced by Python's `json.loads` (numbers restricted to
integers; every input used in this development is integer-valued). -/
inductive Json where
  | null : Json
  | bool (b : Bool) : Json
  | num (n : Int) : Json
  | str (s : String) : Json
  | arr (elems : List Json) : Json
  | obj (fields : List (String × Json)) : Json

/-- Whitespace skipped by the JSON grammar. -/
def isJsonWs (c : Char) : Bool :=
  c = ' ' || c = '\n' || c = '\t' || c = '\r'

def skipWs : List Char → List Char
  | [] => []
  | c :: cs => if isJsonWs c then skipWs cs else c :: cs

/-- Body of a JSON string literal after the opening quote, with the basic
escape sequences. Returns the decoded characters and the rest of the input. -/
def parseStringBody : List Char → Option (List Char × List Char)
  | [] => none
  | c :: cs =>
    if c = quoteChar then some ([], cs)
    else if c = backslashChar then
      match cs with
      | [] => none
      | e :: cs' =>
        let dec : Option Char :=
          if e = quoteChar then some quoteChar
          else if e = backslashChar then some backslashChar
          else if e = '/' then some '/'
          else if e = 'n' then some '\n'
          else if e = 't' then some '\t'
          else if e = 'r' then some '\r'
          else none
        match dec with
        | none => none
        | some d =>
          match parseStringBody cs' with
          | none => none
          | some (body, rest) => some (d :: body, rest)
    else
      match parseStringBody cs with
      | none => none
      | some (body, rest) => some (c :: body, rest)

/-- Longest digit run at the head of the input, as a number. -/
def parseDigits : List Char → Nat → Nat × List Char
  | [], acc => (acc, [])
  | c :: cs, acc =>
    if c.isDigit then parseDigits cs (acc * 10 + (c.toNat - '0'.toNat))
    else (acc, c :: cs)

/-- Integer literal: optional minus sign followed by at least one digit. -/
def parseIntLit : List Char → Option (Int × List Char)
  | [] => none
  | c :: cs =>
    if c = '-' then
      match cs with
      | [] => none
      | d :: _ =>
        if d.isDigit then
          let (n, rest) := parseDigits cs 0
          some (-(n : Int), rest)
        else none
    else if c.isDigit then
      let (n, rest) := parseDigits (c :: cs) 0
      some ((n : Int), rest)
    else none

/-- Literal keyword (`true`/`false`/`null` tails). -/
def parseKeyword : List Char → List Char → Option (List Char)
  | [], input => some input
  | k :: ks, input =>
    match input with
    | [] => none
    | c :: cs => if c = k then parseKeyword ks cs else none

mutual

/-- Recursive-descent JSON value, with fuel bounding the recursion depth. -/
def parseValue : Nat → List Char → Option (Json × List Char)
  | 0, _ => none
  | fuel + 1, input =>
    match skipWs input with
    | [] => none
    | c :: cs =>
      if c = lbraceChar then parseObjTail fuel cs
      else if c = '[' then
        match parseArrTail fuel cs with
        | none => none
        | some (vs, rest) => some (Json.arr vs, rest)
      else if c = quoteChar then
        match parseStringBody cs with
        | none => none
        | some (body, rest) => some (Json.str (String.mk body), rest)
      else if c = 't' then
        match parseKeyword ['r', 'u', 'e'] cs with
        | none => none
        | some rest => some (Json.bool true, rest)
      else if c = 'f' then
        match parseKeyword ['a', 'l', 's', 'e'] cs with
        | none => none
        | some rest => some (Json.bool false, rest)
      else if c = 'n' then
        match parseKeyword ['u', 'l', 'l'] cs with
        | none => none
        | some rest => some (Json.null, rest)
      else
        match parseIntLit (c :: cs) with
        | none => none
        | some (n, rest) => some (Json.num n, rest)

/-- After `[`: empty array or first element onward. -/
def parseArrTail : Nat → List Char → Option (List Json × List Char)
  | 0, _ => none
  | fuel + 1, input =>
    match skipWs input with
    | [] => none
    | c :: cs =>
      if c = ']' then some ([], cs)
      else
        match parseValue fuel (c :: cs) with
        | none => none
        | some (v, rest) => parseArrMore fuel v rest

/-- After an array element: `,` and another element, or `]`. -/
def parseArrMore : Nat → Json → List Char → Option (List Json × List Char)
  | 0, _, _ => none
  | fuel + 1, v, input =>
    match skipWs input with
    | [] => none
    | c :: cs =>
      if c = ']' then some ([v], cs)
      else if c = ',' then
        match parseValue fuel cs with
        | none => none
        | some (v', rest) =>
          match parseArrMore fuel v' rest with
          | none => none
          | some (vs, rest') => some (v :: vs, rest')
      else none

/-- After the opening brace: empty object or first member onward. -/
def parseObjTail : Nat → List Char → Option (Json × List Char)
  | 0, _ => none
  | fuel + 1, input =>
    match skipWs input with
    | [] => none
    | c :: cs =>
      if c = rbraceChar then some (Json.obj [], cs)
      else if c = quoteChar then
        match parseMember fuel cs with
        | none => none
        | some (kv, rest) =>
          match parseObjMore fuel rest with
          | none => none
          | some (kvs, rest') => some (Json.obj (kv :: kvs), rest')
      else none

/-- One object member, starting just after the key's opening quote. -/
def parseMember : Nat → List Char → Option ((String × Json) × List Char)
  | 0, _ => none
  | fuel + 1, input =>
    match parseStringBody input with
    | none => none
    | some (key, rest) =>
      match skipWs rest with
      | [] => none
      | c :: cs =>
        if c = ':' then
          match parseValue fuel cs with
          | none => none
          | some (v, rest') => some ((String.mk key, v), rest')
        else none

/-- After an object member: `,` and another member, or the closing brace. -/
def parseObjMore : Nat → List Char → Option (List (String × Json) × List Char)
  | 0, _ => none
  | fuel + 1, input =>
    match skipWs input with
    | [] => none
    | c :: cs =>
      if c = rbraceChar then some ([], cs)
      else if c = ',' then
        match skipWs cs with
        | [] => none
        | c' :: cs' =>
          if c' = quoteChar then
            match parseMember fuel cs' with
            | none => none
            | some (kv, rest) =>
              match parseObjMore fuel rest with
              | none => none
              | some (kvs, rest') => some (kv :: kvs, rest')
          else none
      else none

end

/-- Model of Python `json.loads`: parse one value, then require that only
whitespace remains; any failure is the raised `JSONDecodeError`, modelled as
`none`. -/
def jsonLoads (s : String) : Option Json :=
  match parseValue (s.length + 1) s.data with
  | none => none
  | some (v, rest) => if skipWs rest = [] then some v else none

/-! ## Python string primitives used by the extraction code -/

/-- Python `str.find(ch)`: index of the first occurrence, `-1` when absent. -/
def pyFind (s : String) (c : Char) : Int :=
  match s.data.findIdx? (fun x => x = c) with
  | some i => (i : Int)
  | none => -1

/-- Python `str.rfind(ch)`: index of the last occurrence, `-1` when absent. -/
def pyRfind (s : String) (c : Char) : Int :=
  match s.data.reverse.findIdx? (fun x => x = c) with
  | some i => ((s.length - 1 - i : Nat) : Int)
  | none => -1

/-- Python slice normalisation: negative indices count from the end, then the
index is clamped to `[0, len]`. -/
def pySliceIdx (len : Nat) (i : Int) : Nat :=
  if i < 0 then (max 0 (len + i)).toNat else min i.toNat len

/-- Python `s[a:b]` (unit step). -/
def pySlice (s : String) (a b : Int) : String :=
  let a' := pySliceIdx s.length a
  let b' := pySliceIdx s.length b
  String.mk ((s.data.drop a').take (b' - a'))

/-- Python `s[:n]` for `n ≥ 0`. -/
def pyTake (s : String) (n : Nat) : String :=
  String.mk (s.data.take n)

/-- Python `str.strip()`: whitespace removed from both ends. -/
def pyStrip (s : String) : String :=
  String.mk (((s.data.dropWhile isJsonWs).reverse.dropWhile isJsonWs).reverse)

/-- Does the second list start with the first? -/
def leadsWith : List Char → List Char → Bool
  | [], _ => true
  | _ :: _, [] => false
  | p :: ps, c :: cs => p = c && leadsWith ps cs

/-- Python `str.startswith(pat)`. -/
def pyStartsWith (s pat : String) : Bool :=
  leadsWith pat.data s.data

/-- Fueled body of `replace`: replace each non-overlapping occurrence of
`pat` (non-empty), scanning left to right. -/
def replaceAllF (pat repl : List Char) : Nat → List Char → List Char
  | 0, l => l
  | _ + 1, [] => []
  | fuel + 1, c :: cs =>
    if leadsWith pat (c :: cs) ∧ pat ≠ [] then
      repl ++ replaceAllF pat repl fuel (cs.drop (pat.length - 1))
    else c :: replaceAllF pat repl fuel cs

/-- Python `str.replace(pat, repl)` for a non-empty pattern (every pattern
used by the source is non-empty). -/
def pyReplace (s pat repl : String) : String :=
  String.mk (replaceAllF pat.data repl.data (s.data.length + 1) s.data)

/-! ## Julep execution output messages -/

/-- One message of a Julep execution's `output` list.  A missing or empty
`content` entry (both falsy under `item.get("content")`) is modelled as the
empty string. -/
structure Message where
  role : String
  content : String
deriving DecidableEq

/-- Loop body of `extract_final_json_from_output` (`main.py` lines 17-31),
already running over the reversed output list: on the first assistant message
with non-empty content, slice from the first opening brace to the last
closing brace and parse; a parse failure returns `None` from inside the
`except` handler (no further messages are considered). -/
def extractJsonRev : List Message → Option Json
  | [] => none
  | m :: rest =>
    if m.role = "assistant" ∧ m.content ≠ "" then
      let text := m.content
      let s := pyFind text lbraceChar
      let e := pyRfind text rbraceChar
      jsonLoads (pySlice text s (e + 1))
    else extractJsonRev rest

/-- `extract_final_json_from_output(output_list)` from `main.py` lines 17-31
(`final-ui.py` lines 49-63 is identical up to logging). -/
def extract_final_json_from_output (output : List Message) : Option Json :=
  extractJsonRev output.reverse

/-! ## WeatherProvider (`tools.py` lines 5-63) -/

/-- Outcome of the geocoding HTTP call in `get_coordinates`: either some
exception was raised inside the `try` block (network error, bad JSON, missing
key), or the response parsed and its `results` field held this list of
`(latitude, longitude)` entries (an absent key is the empty list — both are
falsy under `data.get("results")`). -/
inductive GeoOutcome where
  | error : GeoOutcome
  | ok (results : List (Int × Int)) : GeoOutcome

/-- What `get_coordinates` hands back to its caller.  The Python function has
three exits: the explicit `return loc["latitude"], loc["longitude"]`, the
explicit `return None, None` inside the `except` handler, and — when the
request succeeds but `results` is falsy — falling off the end of the
function, which returns the bare value `None`, not a pair. -/
inductive CoordRet where
  | pair (lat lon : Option Int) : CoordRet
  | noneSingle : CoordRet
deriving DecidableEq

/-- `get_coordinates(city)` from `tools.py` lines 5-17, as a function of the
geocoding outcome. -/
def get_coordinates : GeoOutcome → CoordRet
  | .error => .pair none none
  | .ok [] => .noneSingle
  | .ok (c :: _) => .pair (some c.1) (some c.2)

/-- Exceptions that escape a modelled function. -/
inductive PyError where
  | typeError : PyError
deriving DecidableEq

/-- The weather reading dictionary built by `get_weather`. -/
structure Weather where
  temperature : Int
  condition : String
  recommendation : String
deriving DecidableEq

/-- The fixed default reading returned on a failed lookup. -/
def defaultWeather : Weather :=
  { temperature := 20, condition := "unknown", recommendation := "indoor" }

/-- Outcome of the forecast HTTP call inside `get_weather`'s `try` block:
an exception, or a parsed `current` block with `temperature_2m` and
`weather_code`. -/
inductive ForecastOutcome where
  | error : ForecastOutcome
  | ok (temp code : Int) : ForecastOutcome

/-- `get_weather(city)` from `tools.py` lines 20-63.  The first statement is
`lat, lon = await get_coordinates(city)`: when `get_coordinates` produced the
bare `None` (no geocoding match), that tuple unpacking raises a `TypeError`
outside any handler.  Otherwise `if lat is None` selects the default reading,
and the forecast branch maps the weather code through the fixed thresholds
and derives the dining recommendation. -/
def get_weather (go : GeoOutcome) (fo : ForecastOutcome) : Except PyError Weather :=
  match get_coordinates go with
  | .noneSingle => .error .typeError
  | .pair none _ => .ok defaultWeather
  | .pair (some _) _ =>
    match fo with
    | .error => .ok defaultWeather
    | .ok temp code =>
      let condition :=
        if code = 0 then "clear"
        else if code ≤ 3 then "cloudy"
        else if code ≤ 67 then "rainy"
        else "stormy"
      let recommendation :=
        if condition = "clear" ∧ 15 < temp then "outdoor" else "indoor"
      .ok { temperature := temp, condition := condition, recommendation := recommendation }

/-! ## Coordinate cache (`tools.py` lines 172-183) -/

/-- The module-level `_coordinate_cache` dict, keyed by city.  Updates are
modelled by prepending; lookup takes the most recent binding. -/
def Cache := List (String × CoordRet)

def cacheLookup : Cache → String → Option CoordRet
  | [], _ => none
  | (k, v) :: rest, city => if k = city then some v else cacheLookup rest city

/-- `get_coordinates_cached(city)` from `tools.py` lines 176-183, as a
function of the geocoding outcome a fresh request would see.  Returns the
result, the cache afterwards, and how many geocoding requests were issued. -/
def get_coordinates_cached (city : String) (geo : GeoOutcome) (cache : Cache) :
    CoordRet × Cache × Nat :=
  match cacheLookup cache city with
  | some v => (v, cache, 0)
  | none =>
    let coords := get_coordinates geo
    (coords, (city, coords) :: cache, 1)

/-! ## RestaurantDiscovery (`tools.py` lines 104-139) -/

/-- One URL's fetch inside the scrape loop: the inner `try` swallowed an
exception, or the page was fetched and stripped to this plain text (the
BeautifulSoup markup removal is opaque; its output is the given string). -/
inductive FetchOutcome where
  | fail : FetchOutcome
  | page (content : String) : FetchOutcome
deriving DecidableEq

/-- How far `scrape_restaurants_for_dish` got: the `googlesearch` import
failed, the search call itself raised, or the search yielded these per-URL
fetches. -/
inductive ScrapeOutcome where
  | importError : ScrapeOutcome
  | searchFail : ScrapeOutcome
  | ok (fetches : List FetchOutcome) : ScrapeOutcome

/-- What one URL contributes inside the scrape loop (`tools.py` lines
117-134): a failed fetch is skipped, a page is kept only when its stripped
text is longer than 200 characters, truncated to its first 2000. -/
def keepSnippet : FetchOutcome → Option String
  | .fail => none
  | .page content =>
    if 200 < content.length then some (pyTake content 2000) else none

/-- `scrape_restaurants_for_dish(city, dish)` from `tools.py` lines 104-139:
every failure path returns the list built so far (empty on total failure). -/
def scrape_restaurants_for_dish : ScrapeOutcome → List String
  | .importError => []
  | .searchFail => []
  | .ok fetches => fetches.filterMap keepSnippet

/-! ## ExecutionClient polling protocol -/

/-- Result of the `while ... not in ['succeeded','failed']` loop. -/
inductive PollResult where
  | terminal (s : String) : PollResult
  | timedOut : PollResult
deriving DecidableEq

/-- The loop's exit condition on a status string. -/
def isTerminalStatus (s : String) : Bool :=
  s = "succeeded" || s = "failed"

/-- The polling loop shared by `generate_foodie_tour` and
`extract_dishes_from_text` (`main.py` lines 87-92 and 184-189): poll the
status at the current time `t`; exit on a terminal status; otherwise sleep
2 seconds and, if the wall clock has passed the deadline, give up.
`statusAt t` is the status the service reports at time `t`; `deadline` is
`start + 60` or `start + 30`. -/
def pollLoop (statusAt : Nat → String) (deadline t : Nat) : PollResult :=
  if isTerminalStatus (statusAt t) then .terminal (statusAt t)
  else if deadline < t + 2 then .timedOut
  else pollLoop statusAt deadline (t + 2)
termination_by deadline - t
decreasing_by simp_wf; omega

/-- Outcome of one call into the Julep service: either some `client.*` call
inside the `try` block raised, or a task and execution were created and the
service thereafter reports `statusAt t` at time `t`, with `output` the
message list attached to the result. -/
inductive Svc where
  | raised : Svc
  | run (statusAt : Nat → String) (output : List Message) : Svc

/-- What `generate_foodie_tour`'s poll-and-extract tail (`main.py` lines
87-98) produces once the execution exists: `None` on timeout or a
non-`succeeded` terminal status, otherwise the extracted JSON. -/
def tourOutcome (statusAt : Nat → String) (output : List Message) (t0 : Nat) : Option Json :=
  match pollLoop statusAt (t0 + 60) t0 with
  | .timedOut => none
  | .terminal s => if s = "succeeded" then extract_final_json_from_output output else none

/-- `generate_foodie_tour(city, weather, dishes, restaurant_infos)` from
`main.py` lines 34-103, as a function of the service outcome and the start
time `t0`.  The second component counts execution-service interactions
(0 or 1): the polling loop never creates a second execution.  Returns
`None` on a raised exception, a timeout, a `failed` status, or when JSON
extraction from the output fails; otherwise the extracted JSON value. -/
def generate_foodie_tour (svc : Svc) (t0 : Nat) : Option Json × Nat :=
  match svc with
  | .raised => (none, 0)
  | .run statusAt output => (tourOutcome statusAt output t0, 1)

/-! ## DishExtractor (`main.py` lines 154-214, `final-ui.py` lines 139-199) -/

/-- The fixed fallback dish list. -/
def dishFallback : List Json :=
  [.str "Traditional Dish 1", .str "Traditional Dish 2", .str "Traditional Dish 3"]

/-- The code-fence stripping applied to an already-stripped assistant
content string before `json.loads` (both sources, identical): `str.replace`
removes every occurrence of the marker, not just the fences. -/
def stripFences (content : String) : String :=
  if pyStartsWith content "```json" then
    pyStrip (pyReplace (pyReplace content "```json" "") "```" "")
  else if pyStartsWith content "```" then
    pyStrip (pyReplace content "```" "")
  else content

/-- One assistant message's content through the dish-parsing `try` body:
strip, remove fences, `json.loads`, and keep the first 3 elements when the
result is a list of length at least 3; anything else falls through to the
next message (`except: continue`, and a too-short or non-list value reaches
the end of the loop body). -/
def parseDishContent (c : String) : Option (List Json) :=
  match jsonLoads (stripFences (pyStrip c)) with
  | some (Json.arr ds) => if 3 ≤ ds.length then some (ds.take 3) else none
  | _ => none

/-- What one loop iteration of the dish extractor yields for one message:
non-assistant or empty-content messages are skipped, and a parse failure
leaves `none` (the loop continues). -/
def dishMsgResult (m : Message) : Option (List Json) :=
  if m.role = "assistant" ∧ m.content ≠ "" then parseDishContent m.content else none

/-- First-some choice between one iteration's result and the rest of the
loop. -/
def orElseOpt : Option (List Json) → Option (List Json) → Option (List Json)
  | some ds, _ => some ds
  | none, r => r

/-- The `for item in reversed(result.output)` loop of the dish extractor,
already running over the reversed list: the first message that yields a
parsed dish list decides the result. -/
def dishesFromRev : List Message → Option (List Json)
  | [] => none
  | m :: rest => orElseOpt (dishMsgResult m) (dishesFromRev rest)

/-- What the dish extractors' shared poll-and-parse tail (`main.py` lines
184-210, `final-ui.py` lines 172-195) produces once the execution exists:
the fallback on timeout, a failed status, or when no output message parses;
otherwise the first 3 parsed elements. -/
def dishOutcome (statusAt : Nat → String) (output : List Message) (t0 : Nat) : List Json :=
  match pollLoop statusAt (t0 + 30) t0 with
  | .timedOut => dishFallback
  | .terminal s =>
    if s = "succeeded" then (dishesFromRev output.reverse).getD dishFallback
    else dishFallback

/-- `extract_dishes_from_text(city, dish_text)` from `final-ui.py` lines
139-199.  `dish_text` is `None` or a string; `if not dish_text` returns the
fallback before any service call.  The second component counts
execution-service interactions. -/
def extract_dishes_from_text_ui (dish_text : Option String) (svc : Svc) (t0 : Nat) :
    List Json × Nat :=
  match dish_text with
  | none => (dishFallback, 0)
  | some text =>
    if text = "" then (dishFallback, 0)
    else
      match svc with
      | .raised => (dishFallback, 1)
      | .run statusAt output => (dishOutcome statusAt output t0, 1)

/-- `extract_dishes_from_text(city, dish_text)` from `main.py` lines
154-214.  There is no empty-text guard: the first statement interpolates
`dish_text[:3000]` into the prompt, which raises a `TypeError` outside the
`try` block when `dish_text` is `None`; an empty string proceeds to the
service like any other. -/
def extract_dishes_from_text_main (dish_text : Option String) (svc : Svc) (t0 : Nat) :
    Except PyError (List Json) × Nat :=
  match dish_text with
  | none => (.error .typeError, 0)
  | some _ =>
    match svc with
    | .raised => (.ok dishFallback, 1)
    | .run statusAt output => (.ok (dishOutcome statusAt output t0), 1)

/-- The dish-selection step of `run_workflow` (`main.py` lines 117-124): the
caller, not the extractor, substitutes the fallback when the scraped text is
falsy, so `extract_dishes_from_text` is only reached with non-empty text. -/
def run_workflow_dishes (dish_text : Option String) (svc : Svc) (t0 : Nat) :
    Except PyError (List Json) :=
  match dish_text with
  | none => .ok dishFallback
  | some text =>
    if text = "" then .ok dishFallback
    else (extract_dishes_from_text_main (some text) svc t0).1

/-! ## Restaurant-context blocks of the tour prompts -/

/-- The context block of `generate_foodie_tour` (`main.py` lines 39-41):
every dish contributes a line with its first 3 snippets joined by a
semicolon separator — an empty snippet list leaves the tail of the line
empty. -/
def restaurantContextMain (dishes : List String) (infos : List (List String)) : String :=
  (dishes.zip infos).foldl
    (fun acc p => acc ++ ("\n" ++ p.1 ++ ": " ++ String.intercalate "; " (p.2.take 3))) ""

/-- The context block of `generate_tour` (`final-ui.py` lines 71-76): a dish
with snippets contributes its first 2 joined by the semicolon separator; one
without contributes the literal phrase instead. -/
def restaurantContextUi (dishes : List String) (infos : List (List String)) : String :=
  (dishes.zip infos).foldl
    (fun acc p => acc ++ ("\n" ++ p.1 ++ ": " ++
      (if p.2.isEmpty then "Popular local restaurants"
       else String.intercalate "; " (p.2.take 2)))) ""

/-! ## The TourPlan schema -/

def objGet : List (String × Json) → String → Option Json
  | [], _ => none
  | (k, v) :: rest, key => if k = key then some v else objGet rest key

def isStr : Json → Bool
  | .str _ => true
  | _ => false

def isNum : Json → Bool
  | .num _ => true
  | _ => false

/-- Modelled from the spec: one meal entry of a TourPlan — an object whose
`restaurant`, `address`, `dish`, `description` and `weather_consideration`
fields are all strings.  The source performs no such validation; this
definition exists to compare `generate_foodie_tour`'s results against the
schema the spec promises. -/
def isMeal (j : Json) : Bool :=
  match j with
  | .obj fs =>
    ["restaurant", "address", "dish", "description", "weather_consideration"].all
      fun k => (objGet fs k).any isStr
  | _ => false

/-- Modelled from the spec: the TourPlan schema — `city` a string, `weather`
an object with numeric `temperature` and string `condition`/`dining`,
`iconic_dishes` an array of exactly 3 strings, and `tour` an object whose
`breakfast`/`lunch`/`dinner` entries each satisfy `isMeal`. -/
def isTourPlan (j : Json) : Bool :=
  match j with
  | .obj fs =>
    ((objGet fs "city").any isStr) &&
    (match objGet fs "weather" with
     | some (.obj ws) =>
       ((objGet ws "temperature").any isNum) &&
       ((objGet ws "condition").any isStr) &&
       ((objGet ws "dining").any isStr)
     | _ => false) &&
    (match objGet fs "iconic_dishes" with
     | some (.arr ds) => ds.length = 3 && ds.all isStr
     | _ => false) &&
    (match objGet fs "tour" with
     | some (.obj ts) =>
       ["breakfast", "lunch", "dinner"].all fun k => (objGet ts k).any isMeal
     | _ => false)
  | _ => false

/-! ## Helper lemmas -/

/-- The polling loop either times out or stops at the first poll (on the
2-second grid) whose status is terminal. -/
theorem pollLoop_first_terminal_aux (statusAt : Nat → String) (deadline : Nat) :
    ∀ (n t : Nat), deadline - t ≤ n →
      pollLoop statusAt deadline t = PollResult.timedOut
      ∨ ∃ k, pollLoop statusAt deadline t = PollResult.terminal (statusAt (t + 2 * k))
          ∧ isTerminalStatus (statusAt (t + 2 * k)) = true
          ∧ ∀ j, j < k → isTerminalStatus (statusAt (t + 2 * j)) = false := by
  intro n
  induction n with
  | zero =>
    intro t ht
    rw [pollLoop]
    by_cases hterm : isTerminalStatus (statusAt t) = true
    · right
      refine ⟨0, ?_, ?_, ?_⟩
      · rw [if_pos hterm]
        have e : t + 2 * 0 = t := by omega
        rw [e]
      · have e : t + 2 * 0 = t := by omega
        rw [e]; exact hterm
      · intro j hj; omega
    · left
      rw [if_neg hterm, if_pos (by omega)]
  | succ n ih =>
    intro t ht
    rw [pollLoop]
    by_cases hterm : isTerminalStatus (statusAt t) = true
    · right
      refine ⟨0, ?_, ?_, ?_⟩
      · rw [if_pos hterm]
        have e : t + 2 * 0 = t := by omega
        rw [e]
      · have e : t + 2 * 0 = t := by omega
        rw [e]; exact hterm
      · intro j hj; omega
    · by_cases hd : deadline < t + 2
      · left; rw [if_neg hterm, if_pos hd]
      · rw [if_neg hterm, if_neg hd]
        rcases ih (t + 2) (by omega) with h | ⟨k, hk, hkt, hkmin⟩
        · left; exact h
        · right
          refine ⟨k + 1, ?_, ?_, ?_⟩
          · have e : t + 2 + 2 * k = t + 2 * (k + 1) := by omega
            rw [e] at hk; exact hk
          · have e : t + 2 + 2 * k = t + 2 * (k + 1) := by omega
            rw [e] at hkt; exact hkt
          · intro j hj
            match j with
            | 0 =>
              have e : t + 2 * 0 = t := by omega
              rw [e]
              exact Bool.not_eq_true _ ▸ (Bool.eq_false_iff.mpr hterm)
            | j' + 1 =>
              have e : t + 2 * (j' + 1) = t + 2 + 2 * j' := by omega
              rw [e]
              exact hkmin j' (by omega)

/-- A successfully parsed dish list has exactly 3 entries. -/
theorem parseDishContent_length (c : String) (ds : List Json)
    (h : parseDishContent c = some ds) : ds.length = 3 := by
  unfold parseDishContent at h
  split at h
  next es heq =>
    split at h
    next hl =>
      cases h
      simp [List.length_take]
      omega
    next hl => exact Option.noConfusion h
  next => exact Option.noConfusion h

/-- Any dish list produced by the output-scanning loop has exactly 3
entries. -/
theorem dishesFromRev_length : ∀ (l : List Message) (ds : List Json),
    dishesFromRev l = some ds → ds.length = 3 := by
  intro l
  induction l with
  | nil => intro ds h; exact Option.noConfusion h
  | cons m rest ih =>
    intro ds h
    rw [dishesFromRev] at h
    cases hr : dishMsgResult m with
    | some ds' =>
      rw [hr, orElseOpt] at h
      cases h
      unfold dishMsgResult at hr
      by_cases hm : m.role = "assistant" ∧ m.content ≠ ""
      · rw [if_pos hm] at hr
        exact parseDishContent_length m.content _ hr
      · rw [if_neg hm] at hr
        exact Option.noConfusion hr
    | none =>
      rw [hr, orElseOpt] at h
      exact ih ds h

/-- The dish-extraction result (parsed value or fallback) always has 3
entries. -/
theorem dishResult_length (l : List Message) :
    ((dishesFromRev l).getD dishFallback).length = 3 := by
  cases hp : dishesFromRev l with
  | none => rfl
  | some ds => simpa using dishesFromRev_length l ds hp

/-- A content string whose fence-stripped form parses as a long-enough JSON
array is accepted, yielding its first 3 elements. -/
theorem parseDishContent_eq_of (c : String) (ds : List Json)
    (hj : jsonLoads (stripFences (pyStrip c)) = some (Json.arr ds)) (h3 : 3 ≤ ds.length) :
    parseDishContent c = some (ds.take 3) := by
  unfold parseDishContent
  rw [hj]
  show (if 3 ≤ ds.length then some (ds.take 3) else none) = some (ds.take 3)
  exact if_pos h3

/-- Whatever the polling loop does, the dish tail yields exactly 3
entries. -/
theorem dishOutcome_length (statusAt : Nat → String) (output : List Message) (t0 : Nat) :
    (dishOutcome statusAt output t0).length = 3 := by
  unfold dishOutcome
  cases hp : pollLoop statusAt (t0 + 30) t0 with
  | timedOut => rfl
  | terminal s =>
    show (if s = "succeeded" then (dishesFromRev output.reverse).getD dishFallback
      else dishFallback).length = 3
    by_cases hs : s = "succeeded"
    · rw [if_pos hs]
      exact dishResult_length output.reverse
    · rw [if_neg hs]
      rfl

/-- The `main.py` dish extractor, given any string text, returns a 3-element
list whatever the service does. -/
theorem extract_main_three (text : String) (svc : Svc) (t0 : Nat) :
    ∃ ds, (extract_dishes_from_text_main (some text) svc t0).1 = Except.ok ds
      ∧ ds.length = 3 := by
  cases svc with
  | raised => exact ⟨dishFallback, rfl, rfl⟩
  | run statusAt output =>
    exact ⟨dishOutcome statusAt output t0, rfl, dishOutcome_length statusAt output t0⟩

/-- The dining recommendation is `outdoor` exactly for a clear condition and
a temperature strictly above 15. -/
theorem recommend_iff (cond : String) (temp : Int) :
    ((if cond = "clear" ∧ 15 < temp then "outdoor" else "indoor") = "outdoor") ↔
      (cond = "clear" ∧ 15 < temp) := by
  by_cases hc : cond = "clear" ∧ 15 < temp
  · rw [if_pos hc]
    exact iff_of_true rfl hc
  · rw [if_neg hc]
    exact iff_of_false (by decide) hc

theorem strJoin_cons (s : String) (l : List String) :
    String.join (s :: l) = s ++ String.join l := by
  apply String.ext
  simp [String.data_append]

/-- A left fold that appends one block per element is the concatenation of
the blocks. -/
theorem foldl_blocks {α : Type} (f : α → String) :
    ∀ (l : List α) (acc : String),
      l.foldl (fun a x => a ++ f x) acc = acc ++ String.join (l.map f) := by
  intro l
  induction l with
  | nil => intro acc; simp [String.join]
  | cons x xs ih =>
    intro acc
    rw [List.foldl_cons, ih, List.map_cons, strJoin_cons, String.append_assoc]

/-! ## Claims -/

/-- C1, counterexample: a succeeded execution whose assistant output is the
two-character text consisting of an opening and a closing brace makes
`generate_foodie_tour` return the empty JSON object — a value that does not
satisfy the TourPlan schema — so the function does not return null or a
schema-conforming object only. -/
theorem C1_schema_cex :
    (generate_foodie_tour (Svc.run (fun _ => "succeeded") [⟨"assistant", "\x7b\x7d"⟩]) 0).1 =
      some (Json.obj [])
    ∧ isTourPlan (Json.obj []) = false := by
  constructor
  · show tourOutcome (fun _ => "succeeded") [⟨"assistant", "\x7b\x7d"⟩] 0 = some (Json.obj [])
    rw [tourOutcome, pollLoop]
    rfl
  · rfl

/-- C1 (amended): `generate_foodie_tour` returns null exactly when the
service call raised, the polling loop timed out, the terminal status was not
`succeeded`, or JSON extraction from the assistant output failed; in every
other case it returns the JSON value extracted from the output, with no
validation against the TourPlan schema. -/
theorem C1_tour_null_iff (statusAt : Nat → String) (output : List Message) (t0 : Nat) :
    ((generate_foodie_tour (Svc.run statusAt output) t0).1 = none ↔
      pollLoop statusAt (t0 + 60) t0 = PollResult.timedOut
      ∨ (∃ s, pollLoop statusAt (t0 + 60) t0 = PollResult.terminal s ∧ s ≠ "succeeded")
      ∨ extract_final_json_from_output output = none)
    ∧ (generate_foodie_tour Svc.raised t0).1 = none
    ∧ ∀ j, (generate_foodie_tour (Svc.run statusAt output) t0).1 = some j →
        extract_final_json_from_output output = some j := by
  refine ⟨?_, rfl, ?_⟩
  · show tourOutcome statusAt output t0 = none ↔ _
    unfold tourOutcome
    cases hp : pollLoop statusAt (t0 + 60) t0 with
    | timedOut => simp
    | terminal s =>
      show (if s = "succeeded" then extract_final_json_from_output output else none) = none ↔ _
      by_cases hs : s = "succeeded"
      · subst hs
        rw [if_pos rfl]
        simp
      · rw [if_neg hs]
        constructor
        · intro _
          exact Or.inr (Or.inl ⟨s, rfl, hs⟩)
        · intro _
          rfl
  · intro j h
    replace h : tourOutcome statusAt output t0 = some j := h
    unfold tourOutcome at h
    revert h
    cases hp : pollLoop statusAt (t0 + 60) t0 with
    | timedOut => intro h; exact Option.noConfusion h
    | terminal s =>
      intro h
      by_cases hs : s = "succeeded"
      · subst hs
        exact h
      · have h' : (if s = "succeeded" then extract_final_json_from_output output else none) =
            some j := h
        rw [if_neg hs] at h'
        exact Option.noConfusion h'

/-- C1, witness: a concrete succeeded execution from which a JSON object is
extracted. -/
theorem C1_tour_null_iff_witness :
    extract_final_json_from_output [⟨"assistant", "x \x7b\"a\": 1\x7d y"⟩] =
      some (Json.obj [("a", Json.num 1)]) := by
  refine (C1_tour_null_iff (fun _ => "succeeded") [⟨"assistant", "x \x7b\"a\": 1\x7d y"⟩] 0).2.2
    (Json.obj [("a", Json.num 1)]) ?_
  show tourOutcome (fun _ => "succeeded") [⟨"assistant", "x \x7b\"a\": 1\x7d y"⟩] 0 = _
  rw [tourOutcome, pollLoop]
  rfl

/-- C2: the claim is right and the code is wrong.  When the geocoding
request succeeds but matches nothing, `get_coordinates` falls off the end of
its `try` block and returns a bare `None` instead of the `(None, None)`
pair, and `get_weather`'s tuple unpacking then raises a `TypeError` instead
of producing the default reading.  The raising branch (`except`) and the
forecast-failure branch do return the null pair and the default reading as
claimed. -/
theorem C2_no_match_raises :
    get_coordinates GeoOutcome.error = CoordRet.pair none none
    ∧ get_coordinates (GeoOutcome.ok []) = CoordRet.noneSingle
    ∧ get_weather (GeoOutcome.ok []) ForecastOutcome.error = Except.error PyError.typeError
    ∧ get_weather GeoOutcome.error ForecastOutcome.error = Except.ok defaultWeather
    ∧ ∀ lat lon : Int,
        get_weather (GeoOutcome.ok [(lat, lon)]) ForecastOutcome.error =
          Except.ok defaultWeather :=
  ⟨rfl, rfl, rfl, rfl, fun _ _ => rfl⟩

/-- C3, counterexample: the `main.py` dish extractor called with the empty
string does contact the execution service (one interaction) and returns the
service's parsed dishes, not the fixed fallback list. -/
theorem C3_main_no_guard_cex :
    extract_dishes_from_text_main (some "")
      (Svc.run (fun _ => "succeeded") [⟨"assistant", "[\"A\", \"B\", \"C\"]"⟩]) 0 =
      (Except.ok [Json.str "A", Json.str "B", Json.str "C"], 1)
    ∧ Json.str "A" ≠ Json.str "Traditional Dish 1" := by
  constructor
  · show (Except.ok (dishOutcome (fun _ => "succeeded")
      [⟨"assistant", "[\"A\", \"B\", \"C\"]"⟩] 0), 1) = _
    rw [dishOutcome, pollLoop]
    rfl
  · intro h
    injection h with h
    exact absurd h (by decide)

/-- C3 (amended): the `final-ui.py` extractor returns the fallback
immediately — zero service interactions — for null and for empty text, and
the `main.py` pipeline obtains the same guarantee from the caller
(`run_workflow` substitutes the fallback before calling the extractor);
the `main.py` extractor itself, however, raises a `TypeError` on null text
and contacts the service on empty text. -/
theorem C3_empty_guard (svc : Svc) (t0 : Nat) :
    extract_dishes_from_text_ui none svc t0 = (dishFallback, 0)
    ∧ extract_dishes_from_text_ui (some "") svc t0 = (dishFallback, 0)
    ∧ run_workflow_dishes none svc t0 = Except.ok dishFallback
    ∧ run_workflow_dishes (some "") svc t0 = Except.ok dishFallback
    ∧ extract_dishes_from_text_main none svc t0 = (Except.error PyError.typeError, 0) :=
  ⟨rfl, rfl, rfl, rfl, rfl⟩

/-- C4, counterexample: the `main.py` dish extractor called directly with
null text raises a `TypeError` before any service interaction instead of
returning a 3-element list. -/
theorem C4_null_text_cex :
    extract_dishes_from_text_main none (Svc.run (fun _ => "succeeded") []) 0 =
      (Except.error PyError.typeError, 0) := rfl

/-- C4 (amended): for every string input text and every service outcome
(raised exception, timeout, failed status, malformed output, success) both
extractors return exactly 3 dishes, and the `main.py` pipeline step does so
for absent text as well; only a direct call of the `main.py` extractor with
null text escapes the invariant, by raising. -/
theorem C4_always_three (text : String) (dt : Option String) (svc : Svc) (t0 : Nat) :
    (extract_dishes_from_text_ui dt svc t0).1.length = 3
    ∧ (∃ ds, (extract_dishes_from_text_main (some text) svc t0).1 = Except.ok ds
        ∧ ds.length = 3)
    ∧ (∃ ds, run_workflow_dishes dt svc t0 = Except.ok ds ∧ ds.length = 3) := by
  refine ⟨?_, extract_main_three text svc t0, ?_⟩
  · cases dt with
    | none => rfl
    | some text' =>
      show (if text' = "" then (dishFallback, 0)
        else match svc with
          | Svc.raised => (dishFallback, 1)
          | Svc.run statusAt output => (dishOutcome statusAt output t0, 1)).1.length = 3
      by_cases ht : text' = ""
      · rw [if_pos ht]
        rfl
      · rw [if_neg ht]
        cases svc with
        | raised => rfl
        | run statusAt output => exact dishOutcome_length statusAt output t0
  · cases dt with
    | none => exact ⟨dishFallback, rfl, rfl⟩
    | some text' =>
      show ∃ ds, (if text' = "" then Except.ok dishFallback
        else (extract_dishes_from_text_main (some text') svc t0).1) = Except.ok ds
        ∧ ds.length = 3
      by_cases ht : text' = ""
      · rw [if_pos ht]
        exact ⟨dishFallback, rfl, rfl⟩
      · rw [if_neg ht]
        exact extract_main_three text' svc t0

/-- C5, counterexample: a text that merely contains a valid 3-element JSON
array with prose before it (and no fences) is rejected by the parser, so the
extractor yields the fallback rather than the array's first 3 elements. -/
theorem C5_containment_cex :
    "Here: [\"A\", \"B\", \"C\"]" = "Here: " ++ "[\"A\", \"B\", \"C\"]"
    ∧ jsonLoads "[\"A\", \"B\", \"C\"]" =
        some (Json.arr [Json.str "A", Json.str "B", Json.str "C"])
    ∧ (extract_dishes_from_text_ui (some "t")
        (Svc.run (fun _ => "succeeded") [⟨"assistant", "Here: [\"A\", \"B\", \"C\"]"⟩]) 0).1 =
        dishFallback
    ∧ dishFallback ≠ [Json.str "A", Json.str "B", Json.str "C"] := by
  refine ⟨rfl, rfl, ?_, ?_⟩
  · show dishOutcome (fun _ => "succeeded")
      [⟨"assistant", "Here: [\"A\", \"B\", \"C\"]"⟩] 0 = dishFallback
    rw [dishOutcome, pollLoop]
    rfl
  · intro h
    have h0 := congrArg (fun l => l.headD Json.null) h
    simp only [dishFallback, List.headD] at h0
    injection h0 with h0
    exact absurd h0 (by decide)

/-- C5 (amended): when the service succeeds, an assistant message whose
content — after stripping surrounding whitespace and, when it starts with a
fence marker, removing every occurrence of the markers — parses as a JSON
array of at least 3 elements makes the extractor return exactly that
array's first 3 elements; a content that fails this parse (prose around the
array included) yields the fallback list instead. -/
theorem C5_fenced_array (c : String) (statusAt : Nat → String) (t0 : Nat)
    (hne : c ≠ "")
    (hterm : pollLoop statusAt (t0 + 30) t0 = PollResult.terminal "succeeded") :
    (∀ ds, jsonLoads (stripFences (pyStrip c)) = some (Json.arr ds) → 3 ≤ ds.length →
      (extract_dishes_from_text_ui (some "x")
        (Svc.run statusAt [⟨"assistant", c⟩]) t0).1 = ds.take 3)
    ∧ (parseDishContent c = none →
      (extract_dishes_from_text_ui (some "x")
        (Svc.run statusAt [⟨"assistant", c⟩]) t0).1 = dishFallback) := by
  have hm : (Message.mk "assistant" c).role = "assistant"
      ∧ (Message.mk "assistant" c).content ≠ "" := ⟨rfl, hne⟩
  have hbase : ∀ r, dishMsgResult (Message.mk "assistant" c) = r →
      (extract_dishes_from_text_ui (some "x")
        (Svc.run statusAt [⟨"assistant", c⟩]) t0).1 = (r.getD dishFallback) := by
    intro r hr
    show dishOutcome statusAt [⟨"assistant", c⟩] t0 = r.getD dishFallback
    unfold dishOutcome
    rw [hterm]
    show (dishesFromRev [⟨"assistant", c⟩]).getD dishFallback = r.getD dishFallback
    rw [dishesFromRev, dishesFromRev, hr]
    cases r with
    | none => rfl
    | some ds => rfl
  constructor
  · intro ds hj h3
    have hr : dishMsgResult (Message.mk "assistant" c) = some (ds.take 3) := by
      rw [dishMsgResult, if_pos hm]
      exact parseDishContent_eq_of c ds hj h3
    exact hbase (some (ds.take 3)) hr
  · intro hpf
    have hr : dishMsgResult (Message.mk "assistant" c) = none := by
      rw [dishMsgResult, if_pos hm]
      exact hpf
    exact hbase none hr

/-- C5, witness: a fenced 3-element array is accepted and its elements are
returned with the fences stripped. -/
theorem C5_fenced_array_witness :
    (extract_dishes_from_text_ui (some "x")
      (Svc.run (fun _ => "succeeded")
        [⟨"assistant", "```json\n[\"A\", \"B\", \"C\"]\n```"⟩]) 0).1 =
      [Json.str "A", Json.str "B", Json.str "C"] :=
  (C5_fenced_array "```json\n[\"A\", \"B\", \"C\"]\n```" (fun _ => "succeeded") 0
    (by decide) (by rw [pollLoop]; rfl)).1
    [Json.str "A", Json.str "B", Json.str "C"] rfl (by decide)

/-- C6: on a successful forecast, the weather code is mapped through the
fixed thresholds (0 clear, 1-3 cloudy, 4-67 rainy, above 67 stormy), the
recommendation is `outdoor` exactly when the condition is clear and the
temperature exceeds 15, and the reported temperature is passed through. -/
theorem C6_weather_thresholds (lat lon temp code : Int) (r : Weather)
    (h : get_weather (GeoOutcome.ok [(lat, lon)]) (ForecastOutcome.ok temp code) =
      Except.ok r) :
    (code = 0 → r.condition = "clear")
    ∧ (1 ≤ code → code ≤ 3 → r.condition = "cloudy")
    ∧ (4 ≤ code → code ≤ 67 → r.condition = "rainy")
    ∧ (67 < code → r.condition = "stormy")
    ∧ (r.recommendation = "outdoor" ↔ r.condition = "clear" ∧ 15 < temp)
    ∧ r.temperature = temp := by
  have h' : Except.ok (Weather.mk temp
      (if code = 0 then "clear" else if code ≤ 3 then "cloudy"
       else if code ≤ 67 then "rainy" else "stormy")
      (if (if code = 0 then "clear" else if code ≤ 3 then "cloudy"
           else if code ≤ 67 then "rainy" else "stormy") = "clear" ∧ 15 < temp
       then "outdoor" else "indoor")) = Except.ok r := h
  injection h' with h'
  subst h'
  refine ⟨?_, ?_, ?_, ?_, recommend_iff _ temp, rfl⟩
  · intro h0
    rw [if_pos h0]
  · intro h1 h3
    rw [if_neg (show ¬code = 0 by omega), if_pos h3]
  · intro h4 h67
    rw [if_neg (show ¬code = 0 by omega), if_neg (show ¬code ≤ 3 by omega), if_pos h67]
  · intro hg
    rw [if_neg (show ¬code = 0 by omega), if_neg (show ¬code ≤ 3 by omega),
      if_neg (show ¬code ≤ 67 by omega)]

/-- C6, witness: the Paris scenario — weather code 0 at 22 degrees gives a
clear condition and an outdoor recommendation. -/
theorem C6_weather_thresholds_witness :
    ((0 : Int) = 0 → (Weather.mk 22 "clear" "outdoor").condition = "clear")
    ∧ ((1 : Int) ≤ 0 → (0 : Int) ≤ 3 → (Weather.mk 22 "clear" "outdoor").condition = "cloudy")
    ∧ ((4 : Int) ≤ 0 → (0 : Int) ≤ 67 → (Weather.mk 22 "clear" "outdoor").condition = "rainy")
    ∧ ((67 : Int) < 0 → (Weather.mk 22 "clear" "outdoor").condition = "stormy")
    ∧ ((Weather.mk 22 "clear" "outdoor").recommendation = "outdoor" ↔
        (Weather.mk 22 "clear" "outdoor").condition = "clear" ∧ (15 : Int) < 22)
    ∧ (Weather.mk (22 : Int) "clear" "outdoor").temperature = 22 :=
  C6_weather_thresholds 48 2 22 0 (Weather.mk 22 "clear" "outdoor") rfl

/-- C7, counterexample: the `main.py` prompt builder gives a dish with no
snippets an empty tail after the colon — it never substitutes the phrase
`Popular local restaurants`; only the `final-ui.py` builder does. -/
theorem C7_no_substitution_cex :
    restaurantContextMain ["Sushi"] [[]] = "\nSushi: "
    ∧ restaurantContextMain ["Sushi"] [[]] ≠ "\nSushi: Popular local restaurants"
    ∧ restaurantContextUi ["Sushi"] [[]] = "\nSushi: Popular local restaurants" := by
  refine ⟨rfl, ?_, rfl⟩
  decide

/-- C7 (amended): the `final-ui.py` builder emits, per dish, a line joining
the dish's first 2 snippets with a semicolon separator, substituting the
phrase `Popular local restaurants` when there are none; the `main.py`
builder joins the first 3 snippets and leaves the line's tail empty for a
dish without snippets. -/
theorem C7_context_blocks (dishes : List String) (infos : List (List String)) :
    restaurantContextUi dishes infos =
      String.join ((dishes.zip infos).map fun p =>
        "\n" ++ p.1 ++ ": " ++
          (if p.2.isEmpty then "Popular local restaurants"
           else String.intercalate "; " (p.2.take 2)))
    ∧ restaurantContextMain dishes infos =
      String.join ((dishes.zip infos).map fun p =>
        "\n" ++ p.1 ++ ": " ++ String.intercalate "; " (p.2.take 3)) := by
  constructor
  · have h := foldl_blocks
      (fun p : String × List String =>
        "\n" ++ p.1 ++ ": " ++
          (if p.2.isEmpty then "Popular local restaurants"
           else String.intercalate "; " (p.2.take 2)))
      (dishes.zip infos) ""
    rw [String.empty_append] at h
    exact h
  · have h := foldl_blocks
      (fun p : String × List String =>
        "\n" ++ p.1 ++ ": " ++ String.intercalate "; " (p.2.take 3))
      (dishes.zip infos) ""
    rw [String.empty_append] at h
    exact h

/-- C8: the restaurant scraper returns the empty list on an import failure,
a search failure, or when every per-URL fetch failed, and every snippet it
does keep is longer than 200 characters and truncated to at most 2000. -/
theorem C8_snippet_bounds (fetches : List FetchOutcome) :
    scrape_restaurants_for_dish ScrapeOutcome.importError = []
    ∧ scrape_restaurants_for_dish ScrapeOutcome.searchFail = []
    ∧ ((∀ f ∈ fetches, f = FetchOutcome.fail) →
        scrape_restaurants_for_dish (ScrapeOutcome.ok fetches) = [])
    ∧ ∀ s ∈ scrape_restaurants_for_dish (ScrapeOutcome.ok fetches),
        200 < s.length ∧ s.length ≤ 2000 := by
  refine ⟨rfl, rfl, ?_, ?_⟩
  · intro hall
    show fetches.filterMap keepSnippet = []
    rw [List.filterMap_eq_nil_iff]
    intro f hf
    rw [hall f hf]
    rfl
  · intro s hs
    have hs' : s ∈ fetches.filterMap keepSnippet := hs
    rw [List.mem_filterMap] at hs'
    rcases hs' with ⟨f, hf, hkeep⟩
    cases f with
    | fail => exact Option.noConfusion hkeep
    | page content =>
      have hk : (if 200 < content.length then some (pyTake content 2000) else none) =
          some s := hkeep
      by_cases hc : 200 < content.length
      · rw [if_pos hc] at hk
        cases hk
        have hlen : (pyTake content 2000).length = min 2000 content.length := by
          show (content.data.take 2000).length = _
          rw [List.length_take]
          rfl
        constructor
        · rw [hlen]; omega
        · rw [hlen]; omega
      · rw [if_neg hc] at hk
        exact Option.noConfusion hk

/-- C8, witness: a batch whose only fetch failed yields the empty list. -/
theorem C8_snippet_bounds_witness :
    scrape_restaurants_for_dish (ScrapeOutcome.ok [FetchOutcome.fail]) = [] :=
  (C8_snippet_bounds [FetchOutcome.fail]).2.2.1 (by
    intro f hf
    simp only [List.mem_singleton] at hf
    exact hf)

/-- C9: the polling loop always terminates — it either times out or stops at
the first poll on the 2-second grid whose status is terminal; on timeout the
tour generator returns null and the dish extractor the fallback list, and a
single run never performs more than one execution-service interaction (no
retry). -/
theorem C9_polling (statusAt : Nat → String) (deadline t t0 : Nat) (out : List Message) :
    (pollLoop statusAt deadline t = PollResult.timedOut
      ∨ ∃ k, pollLoop statusAt deadline t = PollResult.terminal (statusAt (t + 2 * k))
          ∧ isTerminalStatus (statusAt (t + 2 * k)) = true
          ∧ ∀ j, j < k → isTerminalStatus (statusAt (t + 2 * j)) = false)
    ∧ (pollLoop statusAt (t0 + 60) t0 = PollResult.timedOut →
        generate_foodie_tour (Svc.run statusAt out) t0 = (none, 1))
    ∧ (pollLoop statusAt (t0 + 30) t0 = PollResult.timedOut →
        extract_dishes_from_text_ui (some "x") (Svc.run statusAt out) t0 = (dishFallback, 1))
    ∧ (generate_foodie_tour (Svc.run statusAt out) t0).2 ≤ 1
    ∧ (generate_foodie_tour Svc.raised t0).2 ≤ 1 := by
  refine ⟨pollLoop_first_terminal_aux statusAt deadline (deadline - t) t (Nat.le_refl _),
    ?_, ?_, Nat.le_refl 1, Nat.zero_le 1⟩
  · intro h
    have ht : tourOutcome statusAt out t0 = none := by
      unfold tourOutcome
      rw [h]
    show (tourOutcome statusAt out t0, 1) = (none, 1)
    rw [ht]
  · intro h
    have hd : dishOutcome statusAt out t0 = dishFallback := by
      unfold dishOutcome
      rw [h]
    show (dishOutcome statusAt out t0, 1) = (dishFallback, 1)
    rw [hd]

/-- C9, witness: a service that never reaches a terminal status makes the
tour generator time out and return null after its single execution. -/
theorem C9_polling_witness :
    generate_foodie_tour (Svc.run (fun _ => "running") []) 0 = (none, 1) :=
  (C9_polling (fun _ => "running") 0 0 0 []).2.1
    (by simp [pollLoop, isTerminalStatus])

/-- C10: once a city is in the coordinate cache, a second lookup returns the
stored value unchanged with no new geocoding request — whatever the second
outcome would have been, and even when the stored value records a failed
lookup. -/
theorem C10_cache_second_call (city : String) (geo1 geo2 : GeoOutcome) (cache0 : Cache) :
    get_coordinates_cached city geo2 (get_coordinates_cached city geo1 cache0).2.1 =
      ((get_coordinates_cached city geo1 cache0).1,
       (get_coordinates_cached city geo1 cache0).2.1, 0) := by
  cases h : cacheLookup cache0 city with
  | some v =>
    have h1 : get_coordinates_cached city geo1 cache0 = (v, cache0, 0) := by
      unfold get_coordinates_cached
      rw [h]
    rw [h1]
    show get_coordinates_cached city geo2 cache0 = (v, cache0, 0)
    unfold get_coordinates_cached
    rw [h]
  | none =>
    have h1 : get_coordinates_cached city geo1 cache0 =
        (get_coordinates geo1, (city, get_coordinates geo1) :: cache0, 1) := by
      unfold get_coordinates_cached
      rw [h]
    rw [h1]
    show get_coordinates_cached city geo2 ((city, get_coordinates geo1) :: cache0) =
      (get_coordinates geo1, (city, get_coordinates geo1) :: cache0, 0)
    unfold get_coordinates_cached
    rw [cacheLookup, if_pos rfl]

end PalatePilot
